import Mathlib

/-!
# Social-signals agent: verification of the entrypoint/adapter layer

Shallow embedding of the data-source adapters of the agent (`getXTrends`,
`getHNTop`, `getNews`, `searchHN`), the six entrypoint handlers registered
with `addEntrypoint` (`overview`, `hn-top`, `news`, `search`, `news-multi`,
`all-signals`), the zod input validation, and the dispatch that couples a
call to the declared price of its entrypoint.

Upstream HTTP calls are modelled as explicit functions from the request
parameters the code sends (hitsPerPage limit, category, query) to an
`Except String` result: `.error` stands for a rejected `fetchJSON` promise
(network failure, non-2xx response, or a body that fails to parse), `.ok`
for the parsed JSON payload. `new Date().toISOString()` is modelled by a
`now : String` parameter; fields that JavaScript can set to `null` are
`Option`-typed.
-/

set_option autoImplicit false

namespace SocialSignals

/-- A raw hit from the Algolia HN search API (`hits[]` entries). `url` is
`none` when the JSON field is absent or `null`; the empty string models a
present-but-empty (falsy) url. -/
structure HNHit where
  title : String
  url : Option String
  objectID : String
  points : Int
  num_comments : Int
  author : String
  created_at : String
  matchLevel : Option String
  deriving Repr, DecidableEq

/-- A raw article from the headlines API (`articles[]` entries). -/
structure Article where
  title : String
  description : String
  url : String
  source_name : Option String
  publishedAt : String
  urlToImage : String
  deriving Repr, DecidableEq

/-- Normalized HN story produced by `getHNTop`. -/
structure HNStory where
  source : String
  title : String
  url : String
  score : Int
  comments : Int
  author : String
  createdAt : String
  deriving Repr, DecidableEq

/-- Normalized HN search result produced by `searchHN`. -/
structure HNSearchResult where
  source : String
  title : String
  url : String
  score : Int
  comments : Int
  relevanceScore : Option String
  deriving Repr, DecidableEq

/-- Normalized news record produced by `getNews`. -/
structure NewsRecord where
  source : String
  title : String
  description : String
  url : String
  source_name : Option String
  publishedAt : String
  imageUrl : String
  deriving Repr, DecidableEq

/-- A trend record (`{source, topic, category}`), both the shape of the
trends feed body and of the hard-coded fallback in `getXTrends`. -/
structure TrendRecord where
  source : String
  topic : String
  category : String
  deriving Repr, DecidableEq

/-- The canonical HN permalink built from the `objectID` of a hit
(the template literal in `getHNTop`/`searchHN`). -/
def hnPermalink (objectID : String) : String :=
  "https://news.ycombinator.com/item?id=" ++ objectID

/-- JavaScript `item.url || permalink`: the external url when it is truthy
(present and non-empty), the permalink otherwise. -/
def resolveHNUrl (url : Option String) (objectID : String) : String :=
  match url with
  | some u => if u = "" then hnPermalink objectID else u
  | none => hnPermalink objectID

/-- The per-hit mapping inside `getHNTop`. -/
def hnHitToStory (item : HNHit) : HNStory :=
  { source := "hackernews"
    title := item.title
    url := resolveHNUrl item.url item.objectID
    score := item.points
    comments := item.num_comments
    author := item.author
    createdAt := item.created_at }

/-- The per-hit mapping inside `searchHN`. -/
def hnHitToSearchResult (item : HNHit) : HNSearchResult :=
  { source := "hackernews"
    title := item.title
    url := resolveHNUrl item.url item.objectID
    score := item.points
    comments := item.num_comments
    relevanceScore := item.matchLevel }

/-- The per-article mapping inside `getNews`. -/
def articleToRecord (article : Article) : NewsRecord :=
  { source := "news"
    title := article.title
    description := article.description
    url := article.url
    source_name := article.source_name
    publishedAt := article.publishedAt
    imageUrl := article.urlToImage }

/-- The `validCategories` list from `getNews`. -/
def validCategories : List String :=
  ["business", "entertainment", "general", "health", "science", "sports", "technology"]

/-- The hard-coded fallback records in `getXTrends`. -/
def fallbackTrends : List TrendRecord :=
  [{ source := "x", topic := "AI Agents", category := "Technology" },
   { source := "x", topic := "x402", category := "Crypto" }]

/-- Outcome of the raw `fetch` in `getXTrends`: the fetch promise itself
rejects (`netError`), or a response arrives with an `ok` flag and a body
whose JSON parse (`response.json()`) either succeeds or rejects. -/
inductive TrendFetchOutcome where
  | netError (e : String)
  | response (ok : Bool) (body : Except String (List TrendRecord))
  deriving Repr

/-- Model of `getXTrends`: `try { fetch; if (response.ok) return response.json() }
catch {}` then the fallback. A rejected fetch is caught; a non-ok response
falls through to the fallback; an ok response returns the un-awaited
`response.json()` promise, whose rejection escapes the `catch`. -/
def getXTrends (outcome : TrendFetchOutcome) : Except String (List TrendRecord) :=
  match outcome with
  | .netError _ => .ok fallbackTrends
  | .response ok body => if ok then body else .ok fallbackTrends

/-- Model of `getHNTop(limit)`: one `fetchJSON` call with `hitsPerPage = limit`,
then `data.hits.map(...)`; no client-side truncation. -/
def getHNTop (limit : Nat) (upstream : Nat → Except String (List HNHit)) :
    Except String (List HNStory) :=
  (upstream limit).map (fun hits => hits.map hnHitToStory)

/-- The category `getNews` actually fetches: the requested one when it is
in `validCategories`, the default `technology` otherwise. -/
def coerceCategory (category : String) : String :=
  if validCategories.contains category then category else "technology"

/-- Model of `getNews(category, limit)`: coerce the category, fetch that category,
then `articles.slice(0, limit).map(...)`. -/
def getNews (category : String) (limit : Nat)
    (upstream : String → Except String (List Article)) :
    Except String (List NewsRecord) :=
  (upstream (coerceCategory category)).map
    (fun articles => (articles.take limit).map articleToRecord)

/-- The request `searchHN` sends upstream: the query string and
`hitsPerPage`. -/
structure SearchRequest where
  query : String
  hitsPerPage : Nat
  deriving Repr, DecidableEq

/-- Model of `searchHN(query, limit)`: one `fetchJSON` call carrying the query and
`hitsPerPage = limit`, then `data.hits.map(...)`; no client-side
truncation. -/
def searchHN (query : String) (limit : Nat)
    (upstream : SearchRequest → Except String (List HNHit)) :
    Except String (List HNSearchResult) :=
  (upstream { query := query, hitsPerPage := limit }).map
    (fun hits => hits.map hnHitToSearchResult)

/-- The upstream environment a call runs against: the front-page HN search
(keyed by `hitsPerPage`), the query HN search, the headlines feed (keyed
by category path), and the trends fetch. -/
structure Upstream where
  hnFront : Nat → Except String (List HNHit)
  hnSearch : SearchRequest → Except String (List HNHit)
  news : String → Except String (List Article)
  trends : TrendFetchOutcome

/-- The `summary` object of the `overview` output. -/
structure OverviewSummary where
  hn_stories : Nat
  news_articles : Nat
  sources : List String
  deriving Repr, DecidableEq

/-- The `sample` object of the `overview` output; `hn_top`/`news_top` are
`title || null`, so `none` models both an empty list and a falsy title. -/
structure OverviewSample where
  hn_top : Option String
  news_top : Option String
  deriving Repr, DecidableEq

/-- Output payload of the `overview` entrypoint. -/
structure OverviewOutput where
  summary : OverviewSummary
  sample : OverviewSample
  fetchedAt : Option String
  upgrade : String
  deriving Repr, DecidableEq

/-- Output payload of the `hn-top` entrypoint. -/
structure HNTopOutput where
  count : Nat
  stories : List HNStory
  fetchedAt : Option String
  deriving Repr, DecidableEq

/-- Output payload of the `news` entrypoint. -/
structure NewsOutput where
  category : String
  count : Nat
  articles : List NewsRecord
  fetchedAt : Option String
  deriving Repr, DecidableEq

/-- Output payload of the `search` entrypoint. -/
structure SearchOutput where
  query : String
  count : Nat
  results : List HNSearchResult
  fetchedAt : Option String
  deriving Repr, DecidableEq

/-- One element of the `results` array of `news-multi`. -/
structure CategoryResult where
  category : String
  articles : List NewsRecord
  deriving Repr, DecidableEq

/-- Output payload of the `news-multi` entrypoint. -/
structure NewsMultiOutput where
  categories : List String
  totalArticles : Nat
  results : List CategoryResult
  fetchedAt : Option String
  deriving Repr, DecidableEq

/-- The `hackernews` section of the `all-signals` output. -/
structure HNSection where
  count : Nat
  stories : List HNStory
  deriving Repr, DecidableEq

/-- The `news` section of the `all-signals` output. -/
structure NewsSection where
  category : String
  count : Nat
  articles : List NewsRecord
  deriving Repr, DecidableEq

/-- The `totals` section of the `all-signals` output. -/
structure Totals where
  sources : Nat
  items : Nat
  deriving Repr, DecidableEq

/-- Output payload of the `all-signals` entrypoint. -/
structure AllSignalsOutput where
  hackernews : HNSection
  news : NewsSection
  totals : Totals
  fetchedAt : Option String
  deriving Repr, DecidableEq

/-- JavaScript `list[0]?.title || null`: `none` for an empty list or a
falsy (empty) title. -/
def headTitle (titles : List String) : Option String :=
  match titles with
  | [] => none
  | t :: _ => if t = "" then none else some t

/-- Handler of the `overview` entrypoint: `getHNTop(3)` and
the technology-category `getNews` with limit 3, joined by `Promise.all`. -/
def overviewHandler (u : Upstream) (now : String) : Except String OverviewOutput := do
  let hnTop ← getHNTop 3 u.hnFront
  let news ← getNews "technology" 3 u.news
  pure
    { summary :=
        { hn_stories := hnTop.length
          news_articles := news.length
          sources := ["hackernews", "news"] }
      sample :=
        { hn_top := headTitle (hnTop.map (·.title))
          news_top := headTitle (news.map (·.title)) }
      fetchedAt := some now
      upgrade := "Use paid endpoints for full data with pagination and filtering" }

/-- Handler of the `hn-top` entrypoint. -/
def hnTopHandler (limit : Nat) (u : Upstream) (now : String) : Except String HNTopOutput := do
  let stories ← getHNTop limit u.hnFront
  pure { count := stories.length, stories := stories, fetchedAt := some now }

/-- Handler of the `news` entrypoint. -/
def newsHandler (category : String) (limit : Nat) (u : Upstream) (now : String) :
    Except String NewsOutput := do
  let articles ← getNews category limit u.news
  pure
    { category := category
      count := articles.length
      articles := articles
      fetchedAt := some now }

/-- Handler of the `search` entrypoint. -/
def searchHandler (query : String) (limit : Nat) (u : Upstream) (now : String) :
    Except String SearchOutput := do
  let results ← searchHN query limit u.hnSearch
  pure
    { query := query
      count := results.length
      results := results
      fetchedAt := some now }

/-- Sequential model of `Promise.all(xs.map(f))` over fallible calls: every element must
succeed, results kept in order, the first failure failing the whole. -/
def mapExcept {α β : Type} (f : α → Except String β) : List α → Except String (List β)
  | [] => .ok []
  | a :: as => do
    let b ← f a
    let bs ← mapExcept f as
    pure (b :: bs)

/-- Handler of the `news-multi` entrypoint: one `getNews` per requested
category joined by `Promise.all`, then the reduced `totalArticles`. -/
def newsMultiHandler (categories : List String) (limitPerCategory : Nat)
    (u : Upstream) (now : String) : Except String NewsMultiOutput := do
  let results ← mapExcept (fun cat => do
    let articles ← getNews cat limitPerCategory u.news
    pure { category := cat, articles := articles : CategoryResult }) categories
  pure
    { categories := categories
      totalArticles := results.foldl (fun sum r => sum + r.articles.length) 0
      results := results
      fetchedAt := some now }

/-- Handler of the `all-signals` entrypoint: `getHNTop` and `getNews`
joined by `Promise.all`, plus the derived `totals`. -/
def allSignalsHandler (hnLimit : Nat) (newsCategory : String) (newsLimit : Nat)
    (u : Upstream) (now : String) : Except String AllSignalsOutput := do
  let hn ← getHNTop hnLimit u.hnFront
  let news ← getNews newsCategory newsLimit u.news
  pure
    { hackernews := { count := hn.length, stories := hn }
      news := { category := newsCategory, count := news.length, articles := news }
      totals := { sources := 2, items := hn.length + news.length }
      fetchedAt := some now }

/-- Raw (pre-validation) input of a call, one shape per entrypoint schema;
`Option` fields are the `.optional().default(...)` ones. -/
inductive RawInput where
  | overviewIn
  | hnTopIn (limit : Option Nat)
  | newsIn (category : Option String) (limit : Option Nat)
  | searchIn (query : String) (limit : Option Nat)
  | newsMultiIn (categories : List String) (limitPerCategory : Option Nat)
  | allSignalsIn (hnLimit : Option Nat) (newsCategory : Option String) (newsLimit : Option Nat)
  deriving Repr

/-- Output payload union over the six entrypoints. -/
inductive Output where
  | overviewOut (o : OverviewOutput)
  | hnTopOut (o : HNTopOutput)
  | newsOut (o : NewsOutput)
  | searchOut (o : SearchOutput)
  | newsMultiOut (o : NewsMultiOutput)
  | allSignalsOut (o : AllSignalsOutput)
  deriving Repr, DecidableEq

/-- Dispatch-level failures (§4.4 taxonomy). -/
inductive DispatchError where
  | notFound
  | validationError
  | upstreamError (cause : String)
  deriving Repr, DecidableEq

/-- The static `price.amount` declared in each `addEntrypoint` call;
`none` for an unknown key. -/
def priceOf : String → Option Nat
  | "overview" => some 0
  | "hn-top" => some 1000
  | "news" => some 1000
  | "search" => some 2000
  | "news-multi" => some 2000
  | "all-signals" => some 3000
  | _ => none

/-- An optional bounded number field: valid when absent or within
`[lo, hi]` (zod `z.number().min(lo).max(hi).optional()`). -/
def optInRange (v : Option Nat) (lo hi : Nat) : Bool :=
  match v with
  | none => true
  | some n => lo ≤ n && n ≤ hi

/-- An optional enum field: valid when absent or in `validCategories`. -/
def optInEnum (v : Option String) : Bool :=
  match v with
  | none => true
  | some c => validCategories.contains c

/-- The zod input schema of each entrypoint, as a boolean predicate on the
raw input; a shape mismatch with the keyed schema fails validation. -/
def validate : String → RawInput → Bool
  | "overview", .overviewIn => true
  | "hn-top", .hnTopIn limit => optInRange limit 1 50
  | "news", .newsIn category limit => optInEnum category && optInRange limit 1 30
  | "search", .searchIn query limit =>
      1 ≤ query.length && query.length ≤ 100 && optInRange limit 1 30
  | "news-multi", .newsMultiIn categories limitPerCategory =>
      1 ≤ categories.length && categories.length ≤ 4 &&
      categories.all (fun c => validCategories.contains c) &&
      optInRange limitPerCategory 1 10
  | "all-signals", .allSignalsIn hnLimit newsCategory newsLimit =>
      optInRange hnLimit 1 30 && optInEnum newsCategory && optInRange newsLimit 1 20
  | _, _ => false

/-- Run the handler of the entrypoint on validated input, applying the schema
defaults for omitted optional fields. -/
def runHandler : String → RawInput → Upstream → String → Except String Output
  | "overview", .overviewIn, u, now => (overviewHandler u now).map .overviewOut
  | "hn-top", .hnTopIn limit, u, now =>
      (hnTopHandler (limit.getD 20) u now).map .hnTopOut
  | "news", .newsIn category limit, u, now =>
      (newsHandler (category.getD "technology") (limit.getD 15) u now).map .newsOut
  | "search", .searchIn query limit, u, now =>
      (searchHandler query (limit.getD 15) u now).map .searchOut
  | "news-multi", .newsMultiIn categories limitPerCategory, u, now =>
      (newsMultiHandler categories (limitPerCategory.getD 5) u now).map .newsMultiOut
  | "all-signals", .allSignalsIn hnLimit newsCategory newsLimit, u, now =>
      (allSignalsHandler (hnLimit.getD 15) (newsCategory.getD "technology")
        (newsLimit.getD 10) u now).map .allSignalsOut
  | _, _, _, _ => .error "unreachable"

/-- Dispatch a call (§4.4): look the entrypoint up by key, validate the
input, run the handler, and pair the successful output with the price
reported to the billing collaborator — the declared amount of the entrypoint. -/
def dispatch (key : String) (raw : RawInput) (u : Upstream) (now : String) :
    Except DispatchError (Nat × Output) :=
  match priceOf key with
  | none => .error .notFound
  | some price =>
    if validate key raw then
      match runHandler key raw u now with
      | .ok out => .ok (price, out)
      | .error e => .error (.upstreamError e)
    else .error .validationError

/-- The `source` tags of every Signal Record contained in an output
payload (the `overview` payload carries counts and titles, no records). -/
def outputSources : Output → List String
  | .overviewOut _ => []
  | .hnTopOut o => o.stories.map (·.source)
  | .newsOut o => o.articles.map (·.source)
  | .searchOut o => o.results.map (·.source)
  | .newsMultiOut o => o.results.flatMap (fun r => r.articles.map (·.source))
  | .allSignalsOut o =>
      o.hackernews.stories.map (·.source) ++ o.news.articles.map (·.source)

/-! ## Concrete fixtures for witnesses and counterexamples -/

/-- A hit with an external (truthy) url. -/
def hitA : HNHit :=
  { title := "A", url := some "https://a.example/post", objectID := "101"
    points := 10, num_comments := 2, author := "alice"
    created_at := "2026-01-01", matchLevel := some "full" }

/-- A hit without an external url (`url` absent/null). -/
def hitNoUrl : HNHit :=
  { title := "B", url := none, objectID := "42"
    points := 5, num_comments := 1, author := "bob"
    created_at := "2026-01-02", matchLevel := none }

/-- A hit whose url is present but empty (falsy in JavaScript). -/
def hitEmptyUrl : HNHit :=
  { title := "C", url := some "", objectID := "7"
    points := 1, num_comments := 0, author := "carol"
    created_at := "2026-01-03", matchLevel := none }

/-- A sample upstream article. -/
def artA : Article :=
  { title := "N", description := "d", url := "https://news.example/a"
    source_name := some "Wire", publishedAt := "2026-01-01", urlToImage := "img" }

/-- An upstream where every source returns an empty result set. -/
def emptyUpstream : Upstream :=
  { hnFront := fun _ => .ok []
    hnSearch := fun _ => .ok []
    news := fun _ => .ok []
    trends := .netError "down" }

/-- An upstream whose front-page HN search ignores `hitsPerPage` and
returns four hits. -/
def fourHitsUpstream : Upstream :=
  { hnFront := fun _ => .ok [hitA, hitNoUrl, hitEmptyUrl, hitA]
    hnSearch := fun _ => .ok []
    news := fun _ => .ok []
    trends := .netError "down" }

/-- An upstream returning two front-page hits, one search hit, and four
articles per category. -/
def smallUpstream : Upstream :=
  { hnFront := fun _ => .ok [hitA, hitNoUrl]
    hnSearch := fun _ => .ok [hitA]
    news := fun _ => .ok [artA, artA, artA, artA]
    trends := .response true (.ok []) }

/-- An upstream returning one hit and one article everywhere. -/
def unitUpstream : Upstream :=
  { hnFront := fun _ => .ok [hitA]
    hnSearch := fun _ => .ok [hitA]
    news := fun _ => .ok [artA]
    trends := .netError "down" }

/-! ## Claim theorems -/


/-- Mapping over a successful result. -/
theorem exceptMap_ok {a b : Type} (f : a → b) (x : a) :
    Except.map (ε := String) f (.ok x) = .ok (f x) := rfl

/-- Mapping over a failed result. -/
theorem exceptMap_error {a b : Type} (f : a → b) (e : String) :
    Except.map f (.error e : Except String a) = (.error e : Except String b) := rfl

/-- C1: for every entrypoint key, the price a successful dispatch reports to
the billing collaborator is the fixed amount declared in the registration
table (overview 0, hn-top 1000, news 1000, search 2000, news-multi 2000,
all-signals 3000), for every input and every upstream response. -/
theorem price_reported_is_table_value :
    (priceOf "overview" = some 0 ∧ priceOf "hn-top" = some 1000 ∧
     priceOf "news" = some 1000 ∧ priceOf "search" = some 2000 ∧
     priceOf "news-multi" = some 2000 ∧ priceOf "all-signals" = some 3000) ∧
    ∀ (key : String) (raw : RawInput) (u : Upstream) (now : String) (p : Nat) (out : Output),
      dispatch key raw u now = .ok (p, out) → priceOf key = some p := by
  refine ⟨⟨rfl, rfl, rfl, rfl, rfl, rfl⟩, ?_⟩
  intro key raw u now p out h
  unfold dispatch at h
  split at h
  · exact absurd h (by simp)
  · next pr hp =>
      split at h
      · split at h
        · cases h; exact hp
        · exact absurd h (by simp)
      · exact absurd h (by simp)

def allSignalsEmptyOut : AllSignalsOutput :=
  { hackernews := { count := 0, stories := [] }
    news := { category := "technology", count := 0, articles := [] }
    totals := { sources := 2, items := 0 }
    fetchedAt := some "t0" }

/-- C1 witness: a concrete all-signals call returning zero items still
reports price 3000. -/
theorem price_reported_is_table_value_witness :
    dispatch "all-signals" (.allSignalsIn none none none) emptyUpstream "t0" =
      .ok (3000, .allSignalsOut allSignalsEmptyOut) ∧
    priceOf "all-signals" = some 3000 :=
  ⟨rfl, price_reported_is_table_value.2 "all-signals" (.allSignalsIn none none none)
    emptyUpstream "t0" 3000 (.allSignalsOut allSignalsEmptyOut) rfl⟩

/-- C2 counterexample: a 2xx response whose body fails to parse makes
`getXTrends` fail with the parse error instead of returning the fallback
records, so `getXTrends` is not failure-free on every upstream failure. -/
theorem getXTrends_can_fail :
    getXTrends (.response true (.error "SyntaxError: Unexpected end of JSON input")) =
      .error "SyntaxError: Unexpected end of JSON input" ∧
    getXTrends (.response true (.error "SyntaxError: Unexpected end of JSON input")) ≠
      .ok fallbackTrends :=
  ⟨rfl, by intro hc; cases hc⟩

/-- C2 amended: on a network error or a non-2xx response `getXTrends`
returns the fixed fallback records; an ok response with a well-formed body
is passed through; but an ok response with a malformed body propagates the
parse error, because the unawaited json() promise escapes the catch. -/
theorem getXTrends_fallback_policy :
    (∀ e : String, getXTrends (.netError e) = .ok fallbackTrends) ∧
    (∀ body, getXTrends (.response false body) = .ok fallbackTrends) ∧
    (∀ trends, getXTrends (.response true (.ok trends)) = .ok trends) ∧
    (∀ e : String, getXTrends (.response true (.error e)) = .error e) :=
  ⟨fun _ => rfl, fun _ => rfl, fun _ => rfl, fun _ => rfl⟩

/-- C5: for every category string, `getNews` fetches the requested category
unchanged when it belongs to the fixed valid set, and silently fetches the
default technology category for every string outside that set. -/
theorem getNews_category_coercion :
    ∀ (category : String) (limit : Nat) (u : String → Except String (List Article)),
      (validCategories.contains category = true ∧
        getNews category limit u =
          (u category).map (fun a => (a.take limit).map articleToRecord)) ∨
      (validCategories.contains category = false ∧
        getNews category limit u =
          (u "technology").map (fun a => (a.take limit).map articleToRecord)) := by
  intro c l u
  by_cases h : validCategories.contains c = true
  · have hm : c ∈ validCategories := by simpa using h
    exact Or.inl ⟨h, by simp [getNews, coerceCategory, hm, Except.map]⟩
  · have hm : c ∉ validCategories := by simpa using h
    refine Or.inr ⟨by simpa using h, ?_⟩
    simp [getNews, coerceCategory, hm, Except.map]

/-- C6: `getNews` returns at most `limit` records — the first
min(limit, length) upstream articles in upstream order — even when the
upstream returns more than requested. -/
theorem getNews_truncates (category : String) (limit : Nat)
    (u : String → Except String (List Article)) (articles : List Article)
    (h : u (coerceCategory category) = .ok articles) :
    getNews category limit u = .ok ((articles.take limit).map articleToRecord) ∧
    ((articles.take limit).map articleToRecord).length = min limit articles.length := by
  exact ⟨by rw [getNews, h]; rfl, by simp⟩

/-- C6 witness: with limit 2 and three upstream articles `getNews` keeps
exactly the first two. -/
theorem getNews_truncates_witness :
    getNews "technology" 2 (fun _ => .ok [artA, artA, artA]) =
      .ok (([artA, artA, artA].take 2).map articleToRecord) ∧
    (([artA, artA, artA].take 2).map articleToRecord).length = min 2 3 :=
  getNews_truncates "technology" 2 _ [artA, artA, artA] rfl

/-- C9: `getHNTop` and `searchHN` return exactly one record per upstream
hit, in upstream order, with no client-side truncation; the limit only
parameterizes the upstream request as hitsPerPage. -/
theorem hn_adapters_no_truncation (limit : Nat)
    (uF : Nat → Except String (List HNHit)) (query : String)
    (uS : SearchRequest → Except String (List HNHit)) (hits shits : List HNHit)
    (h1 : uF limit = .ok hits)
    (h2 : uS { query := query, hitsPerPage := limit } = .ok shits) :
    getHNTop limit uF = .ok (hits.map hnHitToStory) ∧
    (hits.map hnHitToStory).length = hits.length ∧
    searchHN query limit uS = .ok (shits.map hnHitToSearchResult) ∧
    (shits.map hnHitToSearchResult).length = shits.length :=
  ⟨by simp [getHNTop, h1, Except.map], by simp, by simp [searchHN, h2, Except.map], by simp⟩

def fourHits : List HNHit := [hitA, hitNoUrl, hitEmptyUrl, hitA]

/-- C9 witness: with limit 2 and four upstream hits both adapters return
all four records. -/
theorem hn_adapters_no_truncation_witness :
    getHNTop 2 (fun _ => .ok fourHits) = .ok (fourHits.map hnHitToStory) ∧
    (fourHits.map hnHitToStory).length = fourHits.length ∧
    searchHN "ai" 2 (fun _ => .ok fourHits) = .ok (fourHits.map hnHitToSearchResult) ∧
    (fourHits.map hnHitToSearchResult).length = fourHits.length :=
  hn_adapters_no_truncation 2 _ "ai" _ fourHits fourHits rfl rfl


theorem exceptBind_ok {a b : Type} (x : a) (f : a → Except String b) :
    (Except.ok x : Except String a) >>= f = f x := rfl

def overviewOut4 : OverviewOutput :=
  { summary := { hn_stories := 4, news_articles := 0, sources := ["hackernews", "news"] }
    sample := { hn_top := some "A", news_top := none }
    fetchedAt := some "t1"
    upgrade := "Use paid endpoints for full data with pagination and filtering" }

/-- C3 counterexample: when the discussion upstream ignores `hitsPerPage`
and returns four hits, a successful overview call reports four discussion
items — not exactly 3, although the upstream returned no fewer than 3. -/
theorem overview_can_report_more_than_three :
    dispatch "overview" .overviewIn fourHitsUpstream "t1" =
      .ok (0, .overviewOut overviewOut4) ∧
    overviewOut4.summary.hn_stories = 4 :=
  ⟨rfl, rfl⟩

/-- C3 amended: provided the discussion upstream returns at most 3 hits for
the requested page size 3, a successful overview reports exactly
min(3, hits) discussion items, always exactly min(3, articles) headline
items, and a non-null fetchedAt. -/
theorem overview_counts (u : Upstream) (now : String)
    (hits : List HNHit) (articles : List Article) (o : OverviewOutput)
    (hh : u.hnFront 3 = .ok hits) (hlen : hits.length ≤ 3)
    (hn : u.news "technology" = .ok articles)
    (ho : overviewHandler u now = .ok o) :
    o.summary.hn_stories = min 3 hits.length ∧
    o.summary.news_articles = min 3 articles.length ∧
    o.fetchedAt ≠ none := by
  have hcoerce : coerceCategory "technology" = "technology" := by decide
  unfold overviewHandler at ho
  rw [getHNTop, hh] at ho
  rw [getNews, hcoerce, hn] at ho
  simp only [exceptMap_ok, exceptBind_ok] at ho
  injection ho with h2
  subst h2
  refine ⟨?_, ?_, ?_⟩
  · simp [Nat.min_eq_right hlen]
  · simp [List.length_take]
  · simp


def overviewOutSmall : OverviewOutput :=
  { summary := { hn_stories := 2, news_articles := 3, sources := ["hackernews", "news"] }
    sample := { hn_top := some "A", news_top := some "N" }
    fetchedAt := some "t2"
    upgrade := "Use paid endpoints for full data with pagination and filtering" }

/-- C3 witness: with 2 upstream hits and 4 upstream articles the overview
reports 2 discussion and 3 headline items and a non-null fetchedAt. -/
theorem overview_counts_witness :
    overviewOutSmall.summary.hn_stories = min 3 2 ∧
    overviewOutSmall.summary.news_articles = min 3 4 ∧
    overviewOutSmall.fetchedAt ≠ none :=
  overview_counts smallUpstream "t2" [hitA, hitNoUrl] [artA, artA, artA, artA]
    overviewOutSmall rfl (by decide) rfl rfl

def dupOut : NewsMultiOutput :=
  { categories := ["business", "business"]
    totalArticles := 0
    results := [{ category := "business", articles := [] },
                { category := "business", articles := [] }]
    fetchedAt := some "t3" }

/-- C4 counterexample: a news-multi input with a repeated category passes
validation and the call succeeds, so duplicates are not rejected and the
handler runs. -/
theorem newsMulti_duplicates_accepted :
    validate "news-multi" (.newsMultiIn ["business", "business"] none) = true ∧
    dispatch "news-multi" (.newsMultiIn ["business", "business"] none) emptyUpstream "t3" =
      .ok (2000, .newsMultiOut dupOut) :=
  ⟨rfl, rfl⟩

/-- C4 amended: news-multi validation accepts exactly the inputs whose
categories array holds 1 to 4 enum values — with no distinctness
requirement, so duplicates pass — and whose limitPerCategory, when present,
lies in [1, 10]. -/
theorem newsMulti_validation_characterization :
    ∀ (categories : List String) (limitPerCategory : Option Nat),
      validate "news-multi" (.newsMultiIn categories limitPerCategory) = true ↔
        (1 ≤ categories.length ∧ categories.length ≤ 4 ∧
         (∀ c ∈ categories, validCategories.contains c = true) ∧
         optInRange limitPerCategory 1 10 = true) := by
  intro cats lpc
  simp [validate, List.all_eq_true, and_assoc]


/-- JavaScript `reduce((sum, r) => sum + r.articles.length, 0)` is the sum of the
per-category article-list lengths. -/
theorem exceptBind_error {a b : Type} (e : String) (f : a → Except String b) :
    (Except.error e : Except String a) >>= f = .error e := rfl

theorem foldl_add_articles_length (rs : List CategoryResult) (n : Nat) :
    rs.foldl (fun sum r => sum + r.articles.length) n =
      n + (rs.map (fun r => r.articles.length)).sum := by
  induction rs generalizing n with
  | nil => simp
  | cons r rs ih => simp [List.foldl, ih, Nat.add_assoc]

/-- C7: in every successful response, news-multi totalArticles equals the
sum of the per-category article-list lengths of that same response, and
all-signals totals.items equals the story-list length plus the article-list
length with totals.sources equal to 2. -/
theorem derived_totals :
    (∀ (categories : List String) (limitPerCategory : Nat) (u : Upstream)
       (now : String) (o : NewsMultiOutput),
       newsMultiHandler categories limitPerCategory u now = .ok o →
       o.totalArticles = (o.results.map (fun r => r.articles.length)).sum) ∧
    (∀ (hnLimit : Nat) (newsCategory : String) (newsLimit : Nat) (u : Upstream)
       (now : String) (o : AllSignalsOutput),
       allSignalsHandler hnLimit newsCategory newsLimit u now = .ok o →
       o.totals.items = o.hackernews.stories.length + o.news.articles.length ∧
       o.totals.sources = 2) := by
  constructor
  · intro cats lpc u now o ho
    unfold newsMultiHandler at ho
    cases hr : mapExcept (fun cat => do
        let articles ← getNews cat lpc u.news
        pure { category := cat, articles := articles : CategoryResult }) cats with
    | error e => rw [hr] at ho; simp only [exceptBind_error] at ho; cases ho
    | ok rs =>
        rw [hr] at ho
        simp only [exceptBind_ok] at ho
        injection ho with h2
        subst h2
        simp [foldl_add_articles_length]
  · intro hl nc nl u now o ho
    unfold allSignalsHandler at ho
    cases hhn : getHNTop hl u.hnFront with
    | error e => rw [hhn] at ho; simp only [exceptBind_error] at ho; cases ho
    | ok hn =>
        rw [hhn] at ho
        simp only [exceptBind_ok] at ho
        cases hne : getNews nc nl u.news with
        | error e => rw [hne] at ho; simp only [exceptBind_error] at ho; cases ho
        | ok news =>
            rw [hne] at ho
            simp only [exceptBind_ok] at ho
            injection ho with h2
            subst h2
            simp [List.length_map]


def multiOutBS : NewsMultiOutput :=
  { categories := ["business", "science"]
    totalArticles := 2
    results := [{ category := "business", articles := [articleToRecord artA] },
                { category := "science", articles := [articleToRecord artA] }]
    fetchedAt := some "t4" }

def allSigOutUnit : AllSignalsOutput :=
  { hackernews := { count := 1, stories := [hnHitToStory hitA] }
    news := { category := "science", count := 1, articles := [articleToRecord artA] }
    totals := { sources := 2, items := 2 }
    fetchedAt := some "t4" }

/-- C7 witness: concrete news-multi and all-signals outputs whose totals
match their item lists. -/
theorem derived_totals_witness :
    (multiOutBS.totalArticles = (multiOutBS.results.map (fun r => r.articles.length)).sum) ∧
    (allSigOutUnit.totals.items =
        allSigOutUnit.hackernews.stories.length + allSigOutUnit.news.articles.length ∧
     allSigOutUnit.totals.sources = 2) :=
  ⟨derived_totals.1 ["business", "science"] 1 unitUpstream "t4" multiOutBS rfl,
   derived_totals.2 1 "science" 1 unitUpstream "t4" allSigOutUnit rfl⟩

/-- C8: every hit translated by the discussion adapters resolves its url to
the external url when one is present and non-empty, and to the canonical
permalink built from objectID otherwise; the resolved url is never the
empty string, so every discussion record carries a resolvable url. -/
theorem hn_url_resolution :
    ∀ (item : HNHit),
      (∀ u : String, item.url = some u → u ≠ "" →
        (hnHitToStory item).url = u ∧ (hnHitToSearchResult item).url = u) ∧
      ((item.url = none ∨ item.url = some "") →
        (hnHitToStory item).url = hnPermalink item.objectID ∧
        (hnHitToSearchResult item).url = hnPermalink item.objectID) ∧
      (hnHitToStory item).url ≠ "" ∧ (hnHitToSearchResult item).url ≠ "" := by
  intro item
  have hperm : ∀ oid : String, hnPermalink oid ≠ "" := by
    intro oid hc
    have := congrArg String.length hc
    simp [hnPermalink, String.length_append] at this
    exact absurd this.1 (by decide)
  have hres : ∀ oid : String, resolveHNUrl item.url oid ≠ "" := by
    intro oid
    unfold resolveHNUrl
    match item.url with
    | none => exact hperm oid
    | some u =>
        by_cases hu : u = ""
        · simp [hu]; exact hperm oid
        · simp [hu]
  refine ⟨?_, ?_, ?_, ?_⟩
  · intro u hu hne
    simp [hnHitToStory, hnHitToSearchResult, resolveHNUrl, hu, hne]
  · intro hcase
    rcases hcase with hu | hu <;>
      simp [hnHitToStory, hnHitToSearchResult, resolveHNUrl, hu]
  · exact hres item.objectID
  · exact hres item.objectID

/-- C8 witness: concrete hits with an external url, an absent url and an
empty url resolve as claimed. -/
theorem hn_url_resolution_witness :
    ((hnHitToStory hitA).url = "https://a.example/post" ∧
     (hnHitToSearchResult hitA).url = "https://a.example/post") ∧
    ((hnHitToStory hitNoUrl).url = hnPermalink "42" ∧
     (hnHitToSearchResult hitNoUrl).url = hnPermalink "42") ∧
    ((hnHitToStory hitEmptyUrl).url = hnPermalink "7" ∧
     (hnHitToSearchResult hitEmptyUrl).url = hnPermalink "7") :=
  ⟨(hn_url_resolution hitA).1 "https://a.example/post" rfl (by decide),
   (hn_url_resolution hitNoUrl).2.1 (Or.inl rfl),
   (hn_url_resolution hitEmptyUrl).2.1 (Or.inr rfl)⟩


theorem getHNTop_sources {limit : Nat} {u : Nat → Except String (List HNHit)}
    {stories : List HNStory} (h : getHNTop limit u = .ok stories) :
    ∀ st ∈ stories, st.source = "hackernews" := by
  unfold getHNTop at h
  cases hu : u limit with
  | error e => rw [hu] at h; cases h
  | ok hits =>
      rw [hu, exceptMap_ok] at h
      injection h with h2
      subst h2
      intro st hst
      simp [List.mem_map] at hst
      obtain ⟨hit, _, rfl⟩ := hst
      rfl

theorem searchHN_sources {query : String} {limit : Nat}
    {u : SearchRequest → Except String (List HNHit)}
    {results : List HNSearchResult} (h : searchHN query limit u = .ok results) :
    ∀ r ∈ results, r.source = "hackernews" := by
  unfold searchHN at h
  cases hu : u { query := query, hitsPerPage := limit } with
  | error e => rw [hu] at h; cases h
  | ok hits =>
      rw [hu, exceptMap_ok] at h
      injection h with h2
      subst h2
      intro r hr
      simp [List.mem_map] at hr
      obtain ⟨hit, _, rfl⟩ := hr
      rfl

theorem getNews_sources {category : String} {limit : Nat}
    {u : String → Except String (List Article)}
    {recs : List NewsRecord} (h : getNews category limit u = .ok recs) :
    ∀ r ∈ recs, r.source = "news" := by
  unfold getNews at h
  cases hu : u (coerceCategory category) with
  | error e => rw [hu] at h; cases h
  | ok articles =>
      rw [hu, exceptMap_ok] at h
      injection h with h2
      subst h2
      intro r hr
      simp only [List.mem_map] at hr
      obtain ⟨a, _, rfl⟩ := hr
      rfl

theorem mapExcept_news_sources {limitPerCategory : Nat}
    {u : String → Except String (List Article)} :
    ∀ (cats : List String) (rs : List CategoryResult),
      mapExcept (fun cat => do
        let articles ← getNews cat limitPerCategory u
        pure { category := cat, articles := articles : CategoryResult }) cats = .ok rs →
      ∀ r ∈ rs, ∀ a ∈ r.articles, a.source = "news" := by
  intro cats
  induction cats with
  | nil =>
      intro rs h
      unfold mapExcept at h
      injection h with h2
      subst h2
      intro r hr
      cases hr
  | cons c cs ih =>
      intro rs h
      unfold mapExcept at h
      cases hg : getNews c limitPerCategory u with
      | error e => rw [hg] at h; simp only [exceptBind_error] at h; cases h
      | ok articles =>
          rw [hg] at h
          simp only [exceptBind_ok] at h
          cases hrest : mapExcept (fun cat => do
              let articles ← getNews cat limitPerCategory u
              pure { category := cat, articles := articles : CategoryResult }) cs with
          | error e => rw [hrest] at h; simp only [exceptBind_error] at h; cases h
          | ok rest =>
              rw [hrest] at h
              simp only [exceptBind_ok] at h
              injection h with h2
              subst h2
              intro r hr
              cases hr with
              | head => exact fun a ha => getNews_sources hg a ha
              | tail _ hmem => exact ih rest hrest r hmem


theorem hnTopHandler_sources {limit : Nat} {u : Upstream} {now : String}
    {o : HNTopOutput} (h : hnTopHandler limit u now = .ok o) :
    ∀ st ∈ o.stories, st.source = "hackernews" := by
  unfold hnTopHandler at h
  cases hg : getHNTop limit u.hnFront with
  | error e => rw [hg] at h; simp only [exceptBind_error] at h; cases h
  | ok stories =>
      rw [hg] at h
      simp only [exceptBind_ok] at h
      injection h with h2
      subst h2
      exact getHNTop_sources hg

theorem newsHandler_sources {category : String} {limit : Nat} {u : Upstream}
    {now : String} {o : NewsOutput} (h : newsHandler category limit u now = .ok o) :
    ∀ r ∈ o.articles, r.source = "news" := by
  unfold newsHandler at h
  cases hg : getNews category limit u.news with
  | error e => rw [hg] at h; simp only [exceptBind_error] at h; cases h
  | ok articles =>
      rw [hg] at h
      simp only [exceptBind_ok] at h
      injection h with h2
      subst h2
      exact getNews_sources hg

theorem searchHandler_sources {query : String} {limit : Nat} {u : Upstream}
    {now : String} {o : SearchOutput} (h : searchHandler query limit u now = .ok o) :
    ∀ r ∈ o.results, r.source = "hackernews" := by
  unfold searchHandler at h
  cases hg : searchHN query limit u.hnSearch with
  | error e => rw [hg] at h; simp only [exceptBind_error] at h; cases h
  | ok results =>
      rw [hg] at h
      simp only [exceptBind_ok] at h
      injection h with h2
      subst h2
      exact searchHN_sources hg

theorem newsMultiHandler_sources {categories : List String} {limitPerCategory : Nat}
    {u : Upstream} {now : String} {o : NewsMultiOutput}
    (h : newsMultiHandler categories limitPerCategory u now = .ok o) :
    ∀ r ∈ o.results, ∀ a ∈ r.articles, a.source = "news" := by
  unfold newsMultiHandler at h
  cases hr : mapExcept (fun cat => do
      let articles ← getNews cat limitPerCategory u.news
      pure { category := cat, articles := articles : CategoryResult }) categories with
  | error e => rw [hr] at h; simp only [exceptBind_error] at h; cases h
  | ok rs =>
      rw [hr] at h
      simp only [exceptBind_ok] at h
      injection h with h2
      subst h2
      exact mapExcept_news_sources categories rs hr

theorem allSignalsHandler_sources {hnLimit : Nat} {newsCategory : String}
    {newsLimit : Nat} {u : Upstream} {now : String} {o : AllSignalsOutput}
    (h : allSignalsHandler hnLimit newsCategory newsLimit u now = .ok o) :
    (∀ st ∈ o.hackernews.stories, st.source = "hackernews") ∧
    (∀ a ∈ o.news.articles, a.source = "news") := by
  unfold allSignalsHandler at h
  cases hhn : getHNTop hnLimit u.hnFront with
  | error e => rw [hhn] at h; simp only [exceptBind_error] at h; cases h
  | ok hn =>
      rw [hhn] at h
      simp only [exceptBind_ok] at h
      cases hne : getNews newsCategory newsLimit u.news with
      | error e => rw [hne] at h; simp only [exceptBind_error] at h; cases h
      | ok news =>
          rw [hne] at h
          simp only [exceptBind_ok] at h
          injection h with h2
          subst h2
          exact ⟨getHNTop_sources hhn, getNews_sources hne⟩

theorem exceptMap_ok_inv {a b : Type} {f : a → b} {x : Except String a} {y : b}
    (h : Except.map f x = .ok y) : ∃ v, x = .ok v ∧ y = f v := by
  cases x with
  | error e => cases h
  | ok v =>
      refine ⟨v, rfl, ?_⟩
      injection h with h2
      exact h2.symm

theorem runHandler_sources {key : String} {raw : RawInput} {u : Upstream}
    {now : String} {out : Output} (h : runHandler key raw u now = .ok out) :
    ∀ s ∈ outputSources out, s = "hackernews" ∨ s = "news" := by
  unfold runHandler at h
  split at h
  · obtain ⟨o, hho, rfl⟩ := exceptMap_ok_inv h
    intro s hs
    cases hs
  · obtain ⟨o, hho, rfl⟩ := exceptMap_ok_inv h
    intro s hs
    simp only [outputSources, List.mem_map] at hs
    obtain ⟨st, hst, rfl⟩ := hs
    exact Or.inl (hnTopHandler_sources hho st hst)
  · obtain ⟨o, hho, rfl⟩ := exceptMap_ok_inv h
    intro s hs
    simp only [outputSources, List.mem_map] at hs
    obtain ⟨r, hr, rfl⟩ := hs
    exact Or.inr (newsHandler_sources hho r hr)
  · obtain ⟨o, hho, rfl⟩ := exceptMap_ok_inv h
    intro s hs
    simp only [outputSources, List.mem_map] at hs
    obtain ⟨r, hr, rfl⟩ := hs
    exact Or.inl (searchHandler_sources hho r hr)
  · obtain ⟨o, hho, rfl⟩ := exceptMap_ok_inv h
    intro s hs
    simp only [outputSources, List.mem_flatMap, List.mem_map] at hs
    obtain ⟨r, hr, a, ha, rfl⟩ := hs
    exact Or.inr (newsMultiHandler_sources hho r hr a ha)
  · obtain ⟨o, hho, rfl⟩ := exceptMap_ok_inv h
    intro s hs
    simp only [outputSources, List.mem_append, List.mem_map] at hs
    rcases hs with ⟨st, hst, rfl⟩ | ⟨a, ha, rfl⟩
    · exact Or.inl ((allSignalsHandler_sources hho).1 st hst)
    · exact Or.inr ((allSignalsHandler_sources hho).2 a ha)
  · cases h

/-- C10: no entrypoint ever produces a Signal Record with source x — for
every key, input and upstream response, every record in a successful
dispatch output is tagged hackernews or news, so the trend fallback records
never appear in any output. -/
theorem no_trend_records_in_outputs :
    ∀ (key : String) (raw : RawInput) (u : Upstream) (now : String)
      (p : Nat) (out : Output),
      dispatch key raw u now = .ok (p, out) → "x" ∉ outputSources out := by
  intro key raw u now p out h
  unfold dispatch at h
  split at h
  · exact absurd h (by simp)
  · next pr hp =>
      split at h
      · split at h
        · next o hrun =>
            cases h
            intro hmem
            rcases runHandler_sources hrun _ hmem with hx | hx <;>
              exact absurd hx (by decide)
        · exact absurd h (by simp)
      · exact absurd h (by simp)

/-- C10 witness: a concrete successful all-signals dispatch contains no
record with source x. -/
theorem no_trend_records_in_outputs_witness :
    "x" ∉ outputSources (.allSignalsOut allSigOutUnit) :=
  no_trend_records_in_outputs "all-signals" (.allSignalsIn (some 1) (some "science") (some 1))
    unitUpstream "t4" 3000 (.allSignalsOut allSigOutUnit) rfl

end SocialSignals
